import Mathlib

/-!
Verification of the AI Context Orchestration Core of the Sphere
productivity application: document ingestion (text chunking, vector
indexing, deletion), the context assembler, session management, and the
provider adapters, shallowly embedded from the Python source
(`modules/knowledge/knowledge_module.py`, `modules/chat/chat_module.py`,
`core/ai_engine.py`, `database.py`).
-/

namespace Sphere

/-! ## String helpers mirroring the Python primitives

Python strings are modelled through their character lists so that every
operation reduces in the kernel.  `pyWords` models `str.split()` (split on
whitespace runs, dropping empty pieces), `pyStrip` models `str.strip()`,
`strTake s n` models the slice `s[:n]`, `strTail s n` models `s[n:]`,
`pyIsDigit` models `str.isdigit()` (false on the empty string), and
`joinWith sep` models `sep.join(...)`. -/

def pyWordsAux : List Char → List Char → List String
  | [], cur => if cur.isEmpty then [] else [⟨cur.reverse⟩]
  | ch :: rest, cur =>
    if ch.isWhitespace then
      if cur.isEmpty then pyWordsAux rest [] else ⟨cur.reverse⟩ :: pyWordsAux rest []
    else
      pyWordsAux rest (ch :: cur)

def pySplitWords (text : String) : List String :=
  pyWordsAux text.data []

def pyStrip (s : String) : String :=
  ⟨((s.data.dropWhile Char.isWhitespace).reverse.dropWhile Char.isWhitespace).reverse⟩

def strTake (s : String) (n : Nat) : String := ⟨s.data.take n⟩

def strTail (s : String) (n : Nat) : String := ⟨s.data.drop n⟩

def strStarts (s p : String) : Bool := s.data.take p.data.length == p.data

def pyIsDigit (s : String) : Bool := !s.data.isEmpty && s.data.all Char.isDigit

def digitsToNat (s : String) : Nat :=
  s.data.foldl (fun n c => n * 10 + (c.toNat - 48)) 0

def joinWith (sep : String) : List String → String
  | [] => ""
  | [x] => x
  | x :: xs => x ++ sep ++ joinWith sep xs

/-! ## Chunk splitting (`KnowledgeModule._split_text`)

The Python loop is

```
words = text.split()
chunks = []
start = 0
while start < len(words):
    end = start + chunk_size
    chunk = " ".join(words[start:end])
    chunks.append(chunk)
    start = end - overlap
return chunks if chunks else [text]
```

The loop need not terminate (when `overlap >= chunk_size` the start index
does not advance), so it is embedded fuel-indexed: `none` models a run
that did not finish within the given fuel.  `splitLoop` works on the word
list and keeps chunks as word lists; `splitText` joins them back with
single spaces and applies the `chunks if chunks else [text]` fallback. -/

def splitLoop (chunkSize overlap : Nat) (words : List String) :
    Nat → Nat → Option (List (List String))
  | fuel, start =>
    if start < words.length then
      match fuel with
      | 0 => none
      | f + 1 =>
        match splitLoop chunkSize overlap words f (start + chunkSize - overlap) with
        | some rest => some ((words.drop start).take chunkSize :: rest)
        | none => none
    else
      some []

def splitText (text : String) (chunkSize overlap : Nat) : Option (List String) :=
  (splitLoop chunkSize overlap (pySplitWords text) (pySplitWords text).length 0).map
    (fun chunks => if chunks.isEmpty then [text] else chunks.map (joinWith " "))

/-- The call site in `_process_document` uses `chunk_size=500, overlap=50`;
there the loop always terminates (proved below), so the `getD` default is
never reached. -/
def splitText500 (text : String) : List String :=
  (splitText text 500 50).getD [text]

/-! Basic facts about the split loop. -/

theorem splitLoop_isSome (chunkSize overlap : Nat) (hov : overlap < chunkSize)
    (words : List String) :
    ∀ fuel start, words.length - start ≤ fuel * (chunkSize - overlap) →
      (splitLoop chunkSize overlap words fuel start).isSome = true := by
  intro fuel
  induction fuel with
  | zero =>
    intro start h
    have hle : words.length ≤ start := by omega
    simp [splitLoop, Nat.not_lt.mpr hle]
  | succ f ih =>
    intro start h
    by_cases hs : start < words.length
    · have hstep : start + chunkSize - overlap = start + (chunkSize - overlap) := by omega
      have hbound : words.length - (start + (chunkSize - overlap)) ≤ f * (chunkSize - overlap) := by
        rw [Nat.succ_mul] at h
        omega
      have hrec := ih (start + chunkSize - overlap) (by rw [hstep]; exact hbound)
      cases heq : splitLoop chunkSize overlap words f (start + chunkSize - overlap) with
      | none => rw [heq] at hrec; simp at hrec
      | some rest => simp [splitLoop, hs, heq]
    · simp [splitLoop, hs]

theorem splitLoop_getD (chunkSize overlap : Nat) (hov : overlap ≤ chunkSize)
    (words : List String) :
    ∀ fuel start c, splitLoop chunkSize overlap words fuel start = some c →
      ∀ j, j < c.length →
        c.getD j [] = (words.drop (start + (chunkSize - overlap) * j)).take chunkSize ∧
        start + (chunkSize - overlap) * j < words.length := by
  intro fuel
  induction fuel with
  | zero =>
    intro start c hc j hj
    by_cases hs : start < words.length
    · simp [splitLoop, hs] at hc
    · simp [splitLoop, hs] at hc
      subst hc
      simp at hj
  | succ f ih =>
    intro start c hc j hj
    by_cases hs : start < words.length
    · simp only [splitLoop, if_pos hs] at hc
      cases heq : splitLoop chunkSize overlap words f (start + chunkSize - overlap) with
      | none => rw [heq] at hc; simp at hc
      | some rest =>
        rw [heq] at hc
        simp at hc
        subst hc
        cases j with
        | zero => simpa using hs
        | succ i =>
          have hi : i < rest.length := by simpa using hj
          have hstep : start + chunkSize - overlap = start + (chunkSize - overlap) := by omega
          obtain ⟨h1, h2⟩ := ih (start + chunkSize - overlap) rest heq i hi
          rw [hstep] at h1 h2
          have harith : start + (chunkSize - overlap) + (chunkSize - overlap) * i =
              start + (chunkSize - overlap) * (i + 1) := by
            rw [Nat.mul_add, Nat.mul_one]
            omega
          constructor
          · simpa [harith] using h1
          · rw [← harith]; omega
    · simp [splitLoop, hs] at hc
      subst hc
      simp at hj

theorem splitLoop_ne_nil (chunkSize overlap : Nat) (words : List String)
    (hw : words ≠ []) :
    ∀ fuel c, splitLoop chunkSize overlap words fuel 0 = some c → c ≠ [] := by
  intro fuel c hc
  have hlen : 0 < words.length := List.length_pos.mpr hw
  cases fuel with
  | zero => simp [splitLoop, hlen] at hc
  | succ f =>
    simp only [splitLoop, if_pos hlen] at hc
    cases heq : splitLoop chunkSize overlap words f (0 + chunkSize - overlap) with
    | none => rw [heq] at hc; simp at hc
    | some rest =>
      rw [heq] at hc
      simp at hc
      subst hc
      simp

/-- Claim C3: for every text whose word list is non-empty, the chunk split
with chunk size 500 and overlap 50 produces chunks such that every pair of
consecutive chunks overlaps by exactly 50 words, except possibly the pair
involving the last chunk: for every chunk index `j` such that `j + 1` is
not the last index, the final 50 words of chunk `j` (its words from
position 450 on) coincide with the first 50 words of chunk `j + 1`, and
that shared block has length exactly 50.  The joined-string result of
`splitText` is the space-join of exactly these word-level chunks. -/
theorem c3_chunk_overlap (text : String) (h : pySplitWords text ≠ []) :
    ∃ c, splitLoop 500 50 (pySplitWords text) (pySplitWords text).length 0 = some c ∧
      splitText text 500 50 = some (c.map (joinWith " ")) ∧
      c ≠ [] ∧
      ∀ j, j + 2 < c.length →
        (c.getD j []).drop 450 = (c.getD (j + 1) []).take 50 ∧
        ((c.getD j []).drop 450).length = 50 := by
  set w := pySplitWords text with hw
  have hsome : (splitLoop 500 50 w w.length 0).isSome = true := by
    apply splitLoop_isSome 500 50 (by omega) w w.length 0
    have : w.length ≤ w.length * (500 - 50) := by
      have := Nat.le_mul_of_pos_right w.length (show 0 < 500 - 50 by omega)
      omega
    omega
  obtain ⟨c, hc⟩ := Option.isSome_iff_exists.mp hsome
  have hne : c ≠ [] := splitLoop_ne_nil 500 50 w h _ c hc
  refine ⟨c, hc, ?_, hne, ?_⟩
  · have hFalse : c.isEmpty = false := by simp [List.isEmpty_iff, hne]
    simp [splitText, ← hw, hc, hFalse, hne]
  · intro j hj
    obtain ⟨he0, hb0⟩ := splitLoop_getD 500 50 (by omega) w _ 0 c hc j (by omega)
    obtain ⟨he1, hb1⟩ := splitLoop_getD 500 50 (by omega) w _ 0 c hc (j + 1) (by omega)
    obtain ⟨he2, hb2⟩ := splitLoop_getD 500 50 (by omega) w _ 0 c hc (j + 2) (by omega)
    have h450 : (500 - 50 : Nat) = 450 := by norm_num
    simp only [Nat.zero_add, h450] at he0 he1 hb2
    have hdrop : (c.getD j []).drop 450 = (w.drop (450 * (j + 1))).take 50 := by
      rw [he0, List.drop_take]
      have hstep : (w.drop (450 * j)).drop 450 = w.drop (450 * (j + 1)) := by
        rw [List.drop_drop]
        congr 1
      rw [hstep]
    constructor
    · rw [hdrop, he1, List.take_take]
      norm_num
    · rw [hdrop, List.length_take, List.length_drop]
      omega

/-- Claim C3 witness: the hypotheses and the conclusion of
`c3_chunk_overlap` hold at the concrete text "alpha beta". -/
theorem c3_chunk_overlap_witness :
    pySplitWords "alpha beta" ≠ [] ∧
    (∃ c, splitLoop 500 50 (pySplitWords "alpha beta") (pySplitWords "alpha beta").length 0 =
        some c ∧
      splitText "alpha beta" 500 50 = some (c.map (joinWith " ")) ∧
      c ≠ [] ∧
      ∀ j, j + 2 < c.length →
        (c.getD j []).drop 450 = (c.getD (j + 1) []).take 50 ∧
        ((c.getD j []).drop 450).length = 50) :=
  ⟨by decide, c3_chunk_overlap "alpha beta" (by decide)⟩

/-- Claim C10: the chunk-splitting loop terminates whenever
`overlap < chunk_size` — with fuel equal to the number of words the
fuel-indexed loop completes (the start index strictly increases by
`chunk_size - overlap` each iteration) — and the precondition is
necessary: when `overlap >= chunk_size` the loop does not finish within
any amount of fuel on texts longer than `chunk_size` words (the start
index never advances past 0). -/
theorem c10_split_terminates :
    (∀ chunkSize overlap (words : List String), overlap < chunkSize →
      (splitLoop chunkSize overlap words words.length 0).isSome = true) ∧
    (∀ chunkSize overlap (words : List String), chunkSize ≤ overlap →
      chunkSize < words.length →
      ∀ fuel, splitLoop chunkSize overlap words fuel 0 = none) := by
  constructor
  · intro chunkSize overlap words hov
    apply splitLoop_isSome chunkSize overlap hov words words.length 0
    have : words.length ≤ words.length * (chunkSize - overlap) := by
      have := Nat.le_mul_of_pos_right words.length (show 0 < chunkSize - overlap by omega)
      omega
    omega
  · intro chunkSize overlap words hov hlen fuel
    have h0 : 0 < words.length := by omega
    induction fuel with
    | zero => simp [splitLoop, h0]
    | succ f ih =>
      have hstep : 0 + chunkSize - overlap = 0 := by omega
      simp only [splitLoop, if_pos h0, hstep, ih]

/-- Claim C10 witness: both parts of `c10_split_terminates` instantiated
at concrete inputs — `500/50` terminates on a one-word text, `2/2` never
finishes on a three-word text. -/
theorem c10_split_terminates_witness :
    (splitLoop 500 50 ["a"] (["a"] : List String).length 0).isSome = true ∧
    splitLoop 2 2 ["a", "b", "c"] 7 0 = none :=
  ⟨c10_split_terminates.1 500 50 ["a"] (by decide),
   c10_split_terminates.2 2 2 ["a", "b", "c"] (by decide) (by decide) 7⟩

/-! ## Document ingestion (`KnowledgeModule._process_document`)

A document row of the `knowledge_documents` table: `processed` is the
schema's `BOOLEAN DEFAULT 0`, `chunkCount` its `INTEGER DEFAULT 0`.  The
spec's abstract processing status maps onto the row as: `pending` while
`processed = 0`, `processed` once the update at the end of
`_process_document` has run.  No other status is representable. -/

structure DocRow where
  id : Nat
  processed : Bool
  chunkCount : Nat
  summary : String
deriving DecidableEq

/-- The spec-level status view of a document row. -/
def DocRow.status (d : DocRow) : String :=
  if d.processed then "processed" else "pending"

/-- Knowledge-module state: the document rows and the vector-store entries
(`id`, chunk text). -/
structure KState where
  docs : List DocRow
  vec : List (String × String)
deriving DecidableEq

/-- Deterministic chunk ids `doc_<id>_chunk_<index>` for indices
`0 … n-1`, as built in `_process_document` and `_on_delete`. -/
def chunkIds (docId : Nat) (n : Nat) : List String :=
  (List.range n).map (fun i => "doc_" ++ toString docId ++ "_chunk_" ++ toString i)

/-- `Database.update_document(doc_id, processed=True, chunk_count=…,
summary=…)`. -/
def updateDocRow (docId : Nat) (chunkCount : Nat) (summary : String)
    (docs : List DocRow) : List DocRow :=
  docs.map (fun d =>
    if d.id = docId then
      { d with processed := true, chunkCount := chunkCount, summary := summary }
    else d)

/-- `summary = text[:500] + "..." if len(text) > 500 else text`. -/
def pySummary (text : String) : String :=
  if 500 < text.length then strTake text 500 ++ "..." else text

/-- `KnowledgeModule._process_document(doc_id, filepath, filetype)` as a
state transformer.  `text` is the result of `_extract_text` (which never
raises: it catches everything and returns `""`); `vecAdd` is the outcome
of `vector_db.add_texts`, the suspension point at which an exception can
arise — the module-level `except` catches it and only logs, so the state
is returned unchanged.  An empty extraction hits the early `return`,
likewise leaving the state unchanged. -/
def processDocument (docId : Nat) (text : String) (vecAvailable : Bool)
    (vecAdd : Except Unit Unit) (st : KState) : KState :=
  if text = "" then st
  else
    let chunks := splitText500 text
    if vecAvailable then
      match vecAdd with
      | .error _ => st
      | .ok _ =>
        let st1 := { st with vec := st.vec ++ (chunkIds docId chunks.length).zip chunks }
        { st1 with docs := updateDocRow docId chunks.length (pySummary text) st1.docs }
    else
      { st with docs := updateDocRow docId chunks.length (pySummary text) st.docs }

/-- Claim C1 counterexample: a pending document whose extraction yields
empty text is NOT set to `failed` by a processing attempt — the run
leaves the row untouched, so its status is still `pending` (the code has
no `failed` status at all), refuting both "ends with status `failed`" and
"never left permanently `pending`". -/
theorem c1_counterexample :
    processDocument 1 "" true (Except.ok ())
        ⟨[⟨1, false, 0, ""⟩], []⟩ = ⟨[⟨1, false, 0, ""⟩], []⟩ ∧
    ((processDocument 1 "" true (Except.ok ())
        ⟨[⟨1, false, 0, ""⟩], []⟩).docs.find? (fun d => d.id = 1)).map DocRow.status =
      some "pending" := by
  constructor
  · rfl
  · rfl

/-- Claim C1, amended: for every document whose text extraction yields
empty text or whose vector-indexing step raises an exception, the
processing attempt leaves the state unchanged — the document row is never
updated, so it keeps status `pending` (there is no `failed` status in the
code) and keeps its schema-default `chunkCount` of 0; the empty-text
early return also skips the status update entirely. -/
theorem c1_amended (docId : Nat) (text : String) (vecAvailable : Bool)
    (vecAdd : Except Unit Unit) (st : KState) :
    processDocument docId "" vecAvailable vecAdd st = st ∧
    processDocument docId text true (Except.error ()) st = st := by
  constructor
  · rfl
  · unfold processDocument
    by_cases h : text = "" <;> simp [h]

/-! ## Document deletion (`KnowledgeModule._on_delete`)

The deletion handler looks the document up by scanning
`Database.get_documents()` — a newest-first listing with `LIMIT 100` —
then (when found) deletes the chunk id range from the vector store,
removes the file, and finally always runs the `DELETE FROM
knowledge_documents` row removal.  The side effects are recorded as an
event trace in program order. -/

structure KDoc where
  id : Nat
  chunkCount : Nat
  filepath : String
deriving DecidableEq

inductive DelEvent where
  | indexDelete (ids : List String)
  | fileRemove (path : String)
  | rowDelete (id : Nat)
deriving DecidableEq

/-- `Database.get_documents(limit=100)`: the stored rows ordered newest
first (`ORDER BY created_at DESC`), capped at 100.  The `docs` list is
kept in that newest-first order. -/
def getDocuments (docs : List KDoc) : List KDoc := docs.take 100

/-- `KnowledgeModule._on_delete(doc_id)` as its trace of external side
effects.  `fileOk p` models `p and os.path.exists(p)` being satisfiable
for the copied file. -/
def onDeleteEvents (docId : Nat) (docs : List KDoc) (vecAvailable : Bool)
    (fileOk : String → Bool) : List DelEvent :=
  (match (getDocuments docs).find? (fun d => d.id == docId) with
    | none => []
    | some doc =>
      (if doc.chunkCount ≠ 0 ∧ vecAvailable = true then
        [DelEvent.indexDelete (chunkIds docId doc.chunkCount)]
      else [])
      ++ (if doc.filepath ≠ "" ∧ fileOk doc.filepath = true then
        [DelEvent.fileRemove doc.filepath]
      else []))
  ++ [DelEvent.rowDelete docId]

/-- Claim C4 counterexample: with 101 stored documents the oldest one —
present in the store with `chunkCount = 3 > 0` and the index available —
is deleted without ANY index-delete call: the lookup scans
`get_documents()`, which is capped at the 100 newest rows, misses the
document, and the handler still removes the row. -/
theorem c4_counterexample :
    onDeleteEvents 0 ((List.range 101).map (fun i => ⟨100 - i, 3, "p"⟩)) true
        (fun _ => true) = [DelEvent.rowDelete 0] ∧
    (⟨0, 3, "p"⟩ : KDoc) ∈ (List.range 101).map (fun i => (⟨100 - i, 3, "p"⟩ : KDoc)) := by
  constructor
  · decide
  · decide

/-- Claim C4, amended: for every document with `chunkCount = N > 0` that
the handler's lookup actually finds — the lookup scans the newest-first
document listing capped at 100 rows — deleting it with the retrieval
index available issues an index-delete call for exactly the id set
`doc_<id>_chunk_0 … doc_<id>_chunk_(N-1)` before the row removal; a
stored document beyond the newest 100 gets no index-delete (see the
counterexample). -/
theorem c4_amended (docId : Nat) (docs : List KDoc) (fileOk : String → Bool)
    (doc : KDoc)
    (hfind : (getDocuments docs).find? (fun d => d.id == docId) = some doc)
    (hn : doc.chunkCount ≠ 0) :
    ∃ mid, onDeleteEvents docId docs true fileOk =
        DelEvent.indexDelete (chunkIds docId doc.chunkCount) ::
          (mid ++ [DelEvent.rowDelete docId]) ∧
      ∀ e ∈ mid, ∃ p, e = DelEvent.fileRemove p := by
  unfold onDeleteEvents
  rw [hfind]
  by_cases hf : doc.filepath ≠ "" ∧ fileOk doc.filepath = true
  · exact ⟨[DelEvent.fileRemove doc.filepath], by simp [hn, hf], by simp⟩
  · exact ⟨[], by simp [hn, hf], by simp⟩

/-- Claim C4 witness (for the amended theorem): a concrete store holding
one document with two chunks: the trace opens with the index-delete of
exactly `doc_7_chunk_0, doc_7_chunk_1` and closes with the row removal. -/
theorem c4_amended_witness :
    ∃ mid, onDeleteEvents 7 [⟨7, 2, ""⟩] true (fun _ => false) =
        DelEvent.indexDelete (chunkIds 7 2) :: (mid ++ [DelEvent.rowDelete 7]) ∧
      ∀ e ∈ mid, ∃ p, e = DelEvent.fileRemove p :=
  c4_amended 7 [⟨7, 2, ""⟩] (fun _ => false) ⟨7, 2, ""⟩ (by decide) (by decide)

/-! ## Chat history storage (`database.py`) and provider messages

A `chat_history` row.  The `db` lists below are kept in insertion order,
which coincides with ascending `created_at` (SQLite fills the column with
the current timestamp on insert). -/

structure ChatRow where
  session : String
  role : String
  content : String
deriving DecidableEq

/-- A provider-facing message (`{"role": …, "content": …}`). -/
structure ChatMsg where
  role : String
  content : String
deriving DecidableEq

/-- `Database.get_chat_history(session_id, limit=50)`:
`SELECT * FROM chat_history WHERE session_id = ? ORDER BY created_at ASC
LIMIT ?` — the FIRST `limit` rows of the session in ascending time
order. -/
def getChatHistory (sessionId : String) (db : List ChatRow) (limit : Nat) :
    List ChatRow :=
  (db.filter (fun r => r.session == sessionId)).take limit

/-! ### `AIEngine._build_messages` (`core/ai_engine.py`) -/

def SYSTEM_PROMPT : String :=
  "Ты — Sphere AI Assistant, локальный помощник с доступом к данным пользователя. " ++
  "Тебе передаются релевантные заметки, задачи и фрагменты документов — подбираются по запросу. " ++
  "Отвечай точно на основе этих данных: цитируй, ссылайся на конкретные записи, делай выводы. " ++
  "С пользователем можно говорить о чём угодно — о его заметках, планах, документах; твои ответы опираются на его же данные. " ++
  "Отвечай кратко и по делу. Используй Markdown для форматирования."

/-- The instruction appended to the context message when
`mode == "knowledge"`: it forbids using knowledge outside the supplied
context and requires the model to say so when the information is not in
the context. -/
def knowledgeDirective : String :=
  "\n\nВАЖНО: Отвечай ТОЛЬКО на основе данных из контекста выше. Не используй свои общие знания. Если информации нет в контексте — так и скажи."

def ctxHeader : String := "Контекст пользователя:\n"

/-! The context dictionary assembled by `ChatModule._gather_context` and
consumed by `AIEngine._format_context`.  A Python dict key that is absent
is `none`; a key set to a (possibly empty) list is `some`.
`_gather_context` only ever stores non-empty lists. -/

structure TaskIt where
  title : String
  description : String
deriving DecidableEq

structure NoteIt where
  title : String
  content : String
deriving DecidableEq

structure EventIt where
  title : String
deriving DecidableEq

structure DocIt where
  document : String
deriving DecidableEq

structure Ctx where
  tasks : Option (List TaskIt) := none
  events : Option (List EventIt) := none
  notes : Option (List NoteIt) := none
  searchNotes : Option (List NoteIt) := none
  searchTasks : Option (List TaskIt) := none
  searchDocs : Option (List DocIt) := none
deriving DecidableEq

def emptyCtx : Ctx := {}

/-- Python truthiness of the context dict (`if context:`): at least one
key present. -/
def Ctx.truthy (c : Ctx) : Bool :=
  c.tasks.isSome || c.events.isSome || c.notes.isSome ||
  c.searchNotes.isSome || c.searchTasks.isSome || c.searchDocs.isSome

/-- `AIEngine._format_context(context)`. -/
def formatContext (c : Ctx) : String :=
  let p1 : List String :=
    match c.tasks with
    | some l =>
      if l.isEmpty then []
      else ["Текущие задачи: " ++ joinWith ", " ((l.take 5).map TaskIt.title)]
    | none => []
  let p2 : List String :=
    match c.events with
    | some l =>
      if l.isEmpty then []
      else ["Ближайшие события: " ++ joinWith ", " ((l.take 5).map EventIt.title)]
    | none => []
  let p3 : List String :=
    match c.notes with
    | some l =>
      if l.isEmpty then []
      else ["Последние заметки: " ++ joinWith ", " ((l.take 5).map NoteIt.title)]
    | none => []
  let p4 : List String :=
    match c.searchNotes with
    | some l =>
      if l.isEmpty then []
      else
        ["Релевантные заметки:\n" ++ joinWith "\n" ((l.take 5).map (fun n =>
          let content := strTake n.content 200
          if content = "" then n.title
          else "«" ++ n.title ++ "»: " ++ content ++ "..."))]
    | none => []
  let p5 : List String :=
    match c.searchTasks with
    | some l =>
      if l.isEmpty then []
      else
        ["Релевантные задачи:\n" ++ joinWith "\n" ((l.take 5).map (fun t =>
          "- " ++ t.title ++ ": " ++ strTake t.description 150))]
    | none => []
  let p6 : List String :=
    match c.searchDocs with
    | some l =>
      if l.isEmpty then []
      else
        ["Релевантные фрагменты из документов:\n" ++ joinWith "\n" ((l.take 5).map (fun d =>
          "- " ++ strTake d.document 300 ++ "..."))]
    | none => []
  joinWith "\n\n" (p1 ++ p2 ++ p3 ++ p4 ++ p5 ++ p6)

/-- The history slice sent to the provider:
`self.conversation_history[-20:]` (`max_history = 20`). -/
def histSlice (hist : List ChatMsg) : List ChatMsg :=
  hist.drop (hist.length - 20)

/-- `AIEngine._build_messages(user_message, context, mode)`. -/
def buildMessages (userMessage : String) (context : Option Ctx) (mode : String)
    (hist : List ChatMsg) : List ChatMsg :=
  let ctxMsgs : List ChatMsg :=
    match context with
    | none => []
    | some c =>
      if c.truthy then
        let t := formatContext c
        if t = "" then []
        else [⟨"system",
          ctxHeader ++ t ++ (if mode = "knowledge" then knowledgeDirective else "")⟩]
      else []
  ⟨"system", SYSTEM_PROMPT⟩ :: ctxMsgs ++ histSlice hist ++ [⟨"user", userMessage⟩]

/-- Claim C5 counterexample: a session with 51 persisted messages.
`get_chat_history` runs `ORDER BY created_at ASC LIMIT 50`, so the cap is
applied to the ASCENDING order: the oldest 50 rows are returned and the
most recent message (`m50`, which any "most recent 50" cap would have to
keep) is dropped. -/
theorem c5_counterexample :
    ((⟨"s", "user", "m50"⟩ : ChatRow) ∈
      (List.range 51).map (fun i => (⟨"s", "user", "m" ++ toString i⟩ : ChatRow))) ∧
    ((⟨"s", "user", "m50"⟩ : ChatRow) ∉
      getChatHistory "s"
        ((List.range 51).map (fun i => ⟨"s", "user", "m" ++ toString i⟩)) 50) ∧
    getChatHistory "s"
        ((List.range 51).map (fun i => ⟨"s", "user", "m" ++ toString i⟩)) 50 ≠
      ((List.range 51).map (fun i => ⟨"s", "user", "m" ++ toString i⟩)).drop 1 := by
  refine ⟨by decide, by decide, by decide⟩

/-- Claim C5, amended: on selecting a session, the Session Manager loads
that session's persisted messages ascending by time capped at the FIRST
(oldest) 50 — the SQL `LIMIT` applies to the ascending order, so with
more than 50 messages the most recent ones are omitted — and the history
slice passed to the provider is a suffix (the most recent part) of the
in-memory history of length at most 20. -/
theorem c5_amended (sessionId : String) (db : List ChatRow) (u : String)
    (hist : List ChatMsg) :
    (getChatHistory sessionId db 50).length ≤ 50 ∧
    getChatHistory sessionId db 50 =
      (db.filter (fun r => r.session == sessionId)).take 50 ∧
    (∃ pre, hist = pre ++ histSlice hist) ∧
    (histSlice hist).length ≤ 20 ∧
    buildMessages u none "hybrid" hist =
      ⟨"system", SYSTEM_PROMPT⟩ :: (histSlice hist ++ [⟨"user", u⟩]) := by
  refine ⟨?_, rfl, ⟨hist.take (hist.length - 20), ?_⟩, ?_, rfl⟩
  · unfold getChatHistory
    exact List.length_take_le _ _
  · unfold histSlice
    rw [List.take_append_drop]
  · unfold histSlice
    rw [List.length_drop]
    omega

/-- Claim C8: whenever `_build_messages` runs in `knowledge` mode with a
non-empty (truthy) context whose formatted text is non-empty, the context
system message it injects — the second message of the list — is exactly
the formatted context wrapped between the context header and the
`knowledgeDirective` instruction, which forbids the model from using
knowledge outside the supplied context and requires it to say so when the
answer is not present. -/
theorem c8_knowledge_wrap (u : String) (c : Ctx) (hist : List ChatMsg)
    (ht : c.truthy = true) (hf : formatContext c ≠ "") :
    (buildMessages u (some c) "knowledge" hist).get? 1 =
      some ⟨"system", ctxHeader ++ formatContext c ++ knowledgeDirective⟩ := by
  unfold buildMessages
  simp [ht, hf]

/-- Claim C8 witness: `c8_knowledge_wrap` at a concrete context holding
one found note. -/
theorem c8_knowledge_wrap_witness :
    (buildMessages "hi" (some { searchNotes := some [⟨"T", "C"⟩] }) "knowledge" []).get? 1 =
      some ⟨"system",
        ctxHeader ++ formatContext { searchNotes := some [⟨"T", "C"⟩] } ++
          knowledgeDirective⟩ :=
  c8_knowledge_wrap "hi" { searchNotes := some [⟨"T", "C"⟩] } [] (by decide) (by decide)

/-! ## Context gathering (`ChatModule._gather_context`)

Each retrieval source is an oracle parameter: `Except Unit results`
models the `try/except` around the store call (an `error` is swallowed
per-source).  The retrieval calls actually performed are recorded in
program order. -/

inductive RCall where
  | tasksCall
  | eventsCall
  | notesSearch
  | tasksSearch
  | vectorSearch
deriving DecidableEq

def gatherContext (mode userMessage : String)
    (getTasks : Except Unit (List TaskIt)) (getEvents : Except Unit (List EventIt))
    (notesFound : Except Unit (List NoteIt)) (tasksFound : Except Unit (List TaskIt))
    (vecAvailable : Bool) (docsFound : Except Unit (List DocIt)) :
    Ctx × List RCall :=
  if mode = "model_only" then (emptyCtx, [])
  else
    let s1 : Ctx × List RCall :=
      if mode = "hybrid" then
        let c1 : Ctx :=
          match getTasks with
          | .ok l => if l.isEmpty then emptyCtx else { emptyCtx with tasks := some l }
          | .error _ => emptyCtx
        let c2 : Ctx :=
          match getEvents with
          | .ok l => if l.isEmpty then c1 else { c1 with events := some l }
          | .error _ => c1
        (c2, [RCall.tasksCall, RCall.eventsCall])
      else (emptyCtx, [])
    if userMessage ≠ "" ∧ 2 ≤ (pyStrip userMessage).length then
      let c3 : Ctx :=
        match notesFound with
        | .ok l => if l.isEmpty then s1.1 else { s1.1 with searchNotes := some l }
        | .error _ => s1.1
      let c4 : Ctx :=
        match tasksFound with
        | .ok l => if l.isEmpty then c3 else { c3 with searchTasks := some l }
        | .error _ => c3
      if vecAvailable then
        let c5 : Ctx :=
          match docsFound with
          | .ok l => if l.isEmpty then c4 else { c4 with searchDocs := some l }
          | .error _ => c4
        (c5, s1.2 ++ [RCall.notesSearch, RCall.tasksSearch, RCall.vectorSearch])
      else
        (c4, s1.2 ++ [RCall.notesSearch, RCall.tasksSearch])
    else s1

/-- Claim C6: in `model_only` mode the context-gathering step returns the
empty context bundle and performs no retrieval call at all — no
structured-store, full-text, or vector retrieval — regardless of the
query content and of what every source would have returned. -/
theorem c6_model_only_empty (userMessage : String)
    (getTasks : Except Unit (List TaskIt)) (getEvents : Except Unit (List EventIt))
    (notesFound : Except Unit (List NoteIt)) (tasksFound : Except Unit (List TaskIt))
    (vecAvailable : Bool) (docsFound : Except Unit (List DocIt)) :
    gatherContext "model_only" userMessage getTasks getEvents notesFound tasksFound
        vecAvailable docsFound = (emptyCtx, []) := by
  rfl

/-! ## Mid-flight session switching (`ChatModule` + `AIEngine`)

The pieces of state a turn touches: the active session id, the AI
engine's in-memory `conversation_history`, the persisted `chat_history`
rows, and the messages shown by the chat layout. -/

structure AppState where
  currentSession : String
  engineHist : List ChatMsg
  db : List ChatRow
  layoutMsgs : List ChatMsg
deriving DecidableEq

/-- `_on_send_message`: the user message is shown, persisted under the
CURRENT session, and the current session id is captured as
`session_for_request` (returned alongside the state) before the
asynchronous turn starts. -/
def sendUserMessage (message : String) (st : AppState) : AppState × String :=
  ({ st with
      layoutMsgs := st.layoutMsgs ++ [(⟨"user", message⟩ : ChatMsg)],
      db := st.db ++ [(⟨st.currentSession, "user", message⟩ : ChatRow)] },
   st.currentSession)

/-- `_on_session_select` followed by `_load_history`: the active session
changes, and both the layout and the engine's in-memory history are
rebuilt from the persisted rows of the selected session
(`get_chat_history`, display cap 50, then `AIEngine.load_history`). -/
def selectSession (sessionId : String) (st : AppState) : AppState :=
  let msgs := (getChatHistory sessionId st.db 50).map (fun r => (⟨r.role, r.content⟩ : ChatMsg))
  { st with currentSession := sessionId, layoutMsgs := msgs, engineHist := msgs }

/-- Completion of `_get_ai_response` once the provider's response
arrives: `AIEngine.chat` appends the user/assistant exchange to its
in-memory `conversation_history` (whatever that list holds by now), then
the module appends the response to the layout only when the captured
target session is still the active one, and persists the response under
the captured target session. -/
def responseArrives (message response targetSession : String) (st : AppState) :
    AppState :=
  let st1 := { st with
    engineHist := st.engineHist ++
      [(⟨"user", message⟩ : ChatMsg), (⟨"assistant", response⟩ : ChatMsg)] }
  let st2 :=
    if st1.currentSession = targetSession then
      { st1 with layoutMsgs := st1.layoutMsgs ++ [(⟨"assistant", response⟩ : ChatMsg)] }
    else st1
  { st2 with db := st2.db ++ [(⟨targetSession, "assistant", response⟩ : ChatRow)] }

/-- Claim C2, evaluated at the failing interleaving: session "A" is
active and a turn is sent; the user selects session "B" (which has no
persisted messages, so the in-memory history is rebuilt empty) before the
response arrives.  When it arrives, the response IS persisted under "A"
(the claim's first half holds, and it stays off B's displayed list), but
`AIEngine.chat` appends the exchange to its in-memory history
unconditionally — and that history is now session B's active in-memory
history, so B's provider context ends up holding A's turn, refuting the
claim's second half. -/
theorem c2_switch_eval :
    (responseArrives "hi" "resp" (sendUserMessage "hi" ⟨"A", [], [], []⟩).2
        (selectSession "B" (sendUserMessage "hi" ⟨"A", [], [], []⟩).1)).currentSession
      = "B" ∧
    (⟨"A", "assistant", "resp"⟩ : ChatRow) ∈
      (responseArrives "hi" "resp" (sendUserMessage "hi" ⟨"A", [], [], []⟩).2
        (selectSession "B" (sendUserMessage "hi" ⟨"A", [], [], []⟩).1)).db ∧
    (responseArrives "hi" "resp" (sendUserMessage "hi" ⟨"A", [], [], []⟩).2
        (selectSession "B" (sendUserMessage "hi" ⟨"A", [], [], []⟩).1)).layoutMsgs = [] ∧
    (responseArrives "hi" "resp" (sendUserMessage "hi" ⟨"A", [], [], []⟩).2
        (selectSession "B" (sendUserMessage "hi" ⟨"A", [], [], []⟩).1)).engineHist =
      [⟨"user", "hi"⟩, ⟨"assistant", "resp"⟩] := by
  refine ⟨by decide, by decide, by decide, by decide⟩

/-! ## Session id generation (`ChatModule._generate_session_id`) -/

/-- The `today_sessions` filter: `s == date_str or
(s.startswith(date_str + ".") and s[len(date_str)+1:].isdigit())`. -/
def todaySessions (dateStr : String) (sessions : List String) : List String :=
  sessions.filter (fun s =>
    decide (s = dateStr) ||
      (strStarts s (dateStr ++ ".") && pyIsDigit (strTail s (dateStr.length + 1))))

/-- `_generate_session_id` with today's `date_str` passed explicitly
(the source computes it as `datetime.now().strftime("%d.%m.%Y")`) and the
stored session ids (`Database.get_chat_sessions`) as input. -/
def generateSessionId (dateStr : String) (sessions : List String) : String :=
  let today := todaySessions dateStr sessions
  if today.isEmpty then dateStr
  else
    let numbers : List Int := today.foldr
      (fun s acc =>
        if s = dateStr then (-1 : Int) :: acc
        else if pyIsDigit (strTail s (dateStr.length + 1)) then
          ((digitsToNat (strTail s (dateStr.length + 1)) : Int)) :: acc
        else acc) []
    let nextNum : Int :=
      match numbers with
      | [] => 0
      | x :: xs => xs.foldl max x + 1
    dateStr ++ ("." ++ toString nextNum)

/-- Claim C7: when no session for today's date exists (the
`today_sessions` filter comes up empty), `generateSessionId` returns the
bare date string; when exactly that bare-date session exists, the next
call the same day returns the date string with suffix `.0`. -/
theorem c7_session_id (dateStr : String) (s1 s2 : List String)
    (h1 : todaySessions dateStr s1 = [])
    (h2 : todaySessions dateStr s2 = [dateStr]) :
    generateSessionId dateStr s1 = dateStr ∧
    generateSessionId dateStr s2 = dateStr ++ ".0" := by
  constructor
  · unfold generateSessionId
    rw [h1]
    rfl
  · unfold generateSessionId
    rw [h2]
    simp only [List.isEmpty_cons, Bool.false_eq_true, if_false, List.foldr, if_pos rfl,
      List.foldl]
    show dateStr ++ ("." ++ toString (-1 + 1 : Int)) = dateStr ++ ".0"
    norm_num
    rfl

/-- Claim C7 witness: `c7_session_id` at the concrete date "12.10.2026",
first with only the unrelated session "default" stored, then with the
bare-date session also stored. -/
theorem c7_session_id_witness :
    generateSessionId "12.10.2026" ["default"] = "12.10.2026" ∧
    generateSessionId "12.10.2026" ["default", "12.10.2026"] = "12.10.2026" ++ ".0" :=
  c7_session_id "12.10.2026" ["default"] ["default", "12.10.2026"]
    (by decide) (by decide)

/-! ## DeepSeek provider adapter (`core/ai_engine.py`)

`DeepSeekProvider.chat` / `chat_stream` as total functions of the
credential and an oracle for the network interaction.  Every failure mode
of the Python code (missing `openai` library, transport exception) is an
in-band string, so neither method ever raises; the Bool in the result
records whether the network call (`client.chat.completions.create`) was
attempted at all. -/

inductive NetOutcome where
  | ok (response : String)
  | importFail
  | exc (message : String)
deriving DecidableEq

inductive StreamOutcome where
  | fragments (fs : List String)
  | importFail
  | exc (message : String)
deriving DecidableEq

/-- `DeepSeekProvider.chat(messages)`: `if not self.api_key:` short-circuits
(Python falsiness: `None` or the empty string). -/
def deepseekChat (apiKey : Option String) (net : NetOutcome) : String × Bool :=
  if apiKey.getD "" = "" then
    ("Ошибка: DeepSeek API ключ не настроен. Укажите его в настройках.", false)
  else
    match net with
    | .ok r => (r, true)
    | .importFail => ("Ошибка: библиотека openai не установлена.", false)
    | .exc e => ("Ошибка DeepSeek: " ++ e, true)

/-- `DeepSeekProvider.chat_stream(messages)`: the list is the sequence of
yielded fragments (only truthy deltas are yielded on the success path). -/
def deepseekChatStream (apiKey : Option String) (net : StreamOutcome) :
    List String × Bool :=
  if apiKey.getD "" = "" then
    (["Ошибка: DeepSeek API ключ не настроен."], false)
  else
    match net with
    | .fragments fs => (fs.filter (fun f => f ≠ ""), true)
    | .importFail => (["Ошибка: библиотека openai не установлена."], false)
    | .exc e => (["Ошибка DeepSeek: " ++ e], true)

/-- Claim C9: with no credential configured (`None` or empty), for every
message list and whatever the network would have done, `chat` returns and
`chat_stream` yields exactly the static explanatory error message, the
network call is never attempted, and — both being total functions whose
error paths are in-band strings — neither raises. -/
theorem c9_no_credential (apiKey : Option String) (net : NetOutcome)
    (snet : StreamOutcome) (h : apiKey = none ∨ apiKey = some "") :
    deepseekChat apiKey net =
      ("Ошибка: DeepSeek API ключ не настроен. Укажите его в настройках.", false) ∧
    deepseekChatStream apiKey snet =
      (["Ошибка: DeepSeek API ключ не настроен."], false) := by
  rcases h with h | h <;> subst h <;> exact ⟨rfl, rfl⟩

/-- Claim C9 witness: `c9_no_credential` at `apiKey = none` with a
network oracle that would have succeeded. -/
theorem c9_no_credential_witness :
    deepseekChat none (NetOutcome.ok "hello") =
      ("Ошибка: DeepSeek API ключ не настроен. Укажите его в настройках.", false) ∧
    deepseekChatStream none (StreamOutcome.fragments ["a", "b"]) =
      (["Ошибка: DeepSeek API ключ не настроен."], false) :=
  c9_no_credential none (NetOutcome.ok "hello") (StreamOutcome.fragments ["a", "b"])
    (Or.inl rfl)

end Sphere
